import Mathlib

/-!
Verification development for the `computer` repository (src/Computer.cpp).

The program launches a QEMU virtual machine and, in VNC (bridged display)
mode, a websockify display bridge, as two supervised child processes.  We
embed the decision logic, the command builder, and the process lifecycle of
`ComputerVM` as executable Lean definitions and prove the specified
properties about them.

Modelling conventions:
* The filesystem is a snapshot: an association list from paths to file
  contents (byte lists), plus the list of entry names of the removable-media
  directory (an unreadable directory is modelled by the empty entry list,
  matching the degraded-probe behaviour of `findISO`).
* External process effects are recorded in an event trace: launching a
  child, sending it SIGTERM, reaping it with waitpid, invoking the
  disk-creation tool, and exiting the program.
* Environment facts that the program merely consults (does fork succeed,
  is websockify installed, does the disk tool succeed, which pid a fork
  returns) are inputs in `Env`.
-/

/-- Fixed path of the persistent disk image, from the `ComputerVM` constructor. -/
def diskPath : String := "./devices/disk/disk.qcow2"

/-- Fixed directory scanned for removable media, from the `ComputerVM` constructor. -/
def romPath : String := "./devices/rom"

/-- Fixed path of the read-only firmware image, from the `ComputerVM` constructor. -/
def firmwarePath : String := "./boot/firmware/OVMF_CODE.fd"

/-- Fixed path of the web-asset bundle served by the bridge, from the `ComputerVM` constructor. -/
def noVNCPath : String := "./libraries/noVNC"

/-- Fixed path of the firmware variable store, the local `varsPath` in `buildQEMUCommand`. -/
def varsPath : String := "./boot/firmware/OVMF_VARS.fd"

/-- Filesystem snapshot: files as path/content pairs, plus the entry names of
the removable-media directory `./devices/rom`. -/
structure FS where
  files : List (String × List Nat)
  romEntries : List String
deriving DecidableEq

/-- Content of a file, newest write first, mirroring `std::ofstream` overwrite. -/
def FS.lookupFile (fs : FS) (p : String) : Option (List Nat) :=
  fs.files.lookup p

/-- Embeds `fs::exists(p)`. -/
def FS.existsFile (fs : FS) (p : String) : Bool :=
  (fs.lookupFile p).isSome

/-- Writing a file: the new content shadows any previous content of the path. -/
def FS.writeFile (fs : FS) (p : String) (c : List Nat) : FS :=
  { fs with files := (p, c) :: fs.files }

/-- Embeds `entry.path().extension() == ".iso"` on a directory entry name:
the extension is `.iso` exactly when the last four characters of the name
are `.iso` and the name is not the bare dotfile `.iso` (whose C++ extension
is empty). -/
def hasIsoExt (n : String) : Bool :=
  (n.data.drop (n.data.length - 4) == ['.', 'i', 's', 'o']) && (n.data.length != 4)

/-- Embeds `ComputerVM::findISO`: the first entry of the rom directory with
extension `.iso`, returned as a full path, or the empty string.  A scan
error degrades to the empty entry list, hence the empty string. -/
def findISO (fs : FS) : String :=
  match fs.romEntries.find? (fun n => hasIsoExt n) with
  | some n => romPath ++ "/" ++ n
  | none => ""

/-- Mutable state of the `ComputerVM` object: the display-mode flag and the
two child pids, with `-1` as the not-running sentinel. -/
structure VMState where
  useVNC : Bool
  qemuPid : Int
  websockifyPid : Int
deriving DecidableEq

/-- Logical role of a supervised child process. -/
inductive Role where
  | emulator
  | bridge
deriving DecidableEq

/-- One observable process-lifecycle action of the program. -/
inductive Event where
  | launch (r : Role)
  | term (r : Role)
  | reap (r : Role)
  | diskCreate
  | exited (code : Int)
deriving DecidableEq

/-- Facts about the outside world that the program consults: the filesystem
snapshot, whether `qemu-img create` succeeds, whether `which websockify`
succeeds, whether each `fork` succeeds, and the pid each successful fork
returns (always positive for a real fork). -/
structure Env where
  fs : FS
  qemuImgCreateOk : Bool
  websockifyInstalled : Bool
  forkQemuOk : Bool
  forkWebsockifyOk : Bool
  qemuChildPid : Int
  websockifyChildPid : Int
deriving DecidableEq

/-- Content written on first creation of the variable store:
`std::vector<char> emptyVars(64 * 1024, 0)`, 64 KiB of zero bytes. -/
def varsContent : List Nat := List.replicate (64 * 1024) 0

/-- Embeds `ComputerVM::buildQEMUCommand`: assembles the ordered token list
for the emulator and, when firmware is present and the variable store is
absent, creates the variable store as 64 KiB of zero bytes.  Returns the
token list and the resulting filesystem. -/
def buildQEMUCommand (fs : FS) (useVNC : Bool) : List String × FS :=
  let cmd : List String := ["qemu-system-x86_64"]
  let cmd := cmd ++ ["-enable-kvm", "-cpu", "host", "-smp", "4", "-m", "4G"]
  let cmd := cmd ++ ["-vga", "virtio"]
  let cmd := cmd ++ (if useVNC then ["-display", "none", "-vnc", ":1"]
                     else ["-display", "gtk,full-screen=on"])
  let fw :=
    if fs.existsFile firmwarePath then
      let fs2 := if fs.existsFile varsPath then fs
                 else fs.writeFile varsPath varsContent
      (["-drive", "if=pflash,format=raw,readonly=on,file=" ++ firmwarePath,
        "-drive", "if=pflash,format=raw,file=" ++ varsPath], fs2)
    else (([] : List String), fs)
  let cmd := cmd ++ fw.1
  let fs1 := fw.2
  let cmd := cmd ++ (if fs1.existsFile diskPath then
      ["-drive", "file=" ++ diskPath ++ ",format=qcow2,if=virtio"] else [])
  let isoFile := findISO fs1
  let cmd := cmd ++ (if isoFile != "" then ["-cdrom", isoFile] else [])
  let cmd := cmd ++ ["-audiodev", "alsa,id=audio0",
                     "-device", "intel-hda",
                     "-device", "hda-duplex,audiodev=audio0"]
  let cmd := cmd ++ ["-netdev", "user,id=net0",
                     "-device", "virtio-net-pci,netdev=net0"]
  let cmd := cmd ++ ["-device", "usb-ehci", "-device", "usb-tablet"]
  let cmd := cmd ++ ["-rtc", "base=localtime,clock=host"]
  (cmd, fs1)

/-- Embeds `ComputerVM::createDefaultDisk`: if the disk image is absent,
invoke the disk tool; report its success and record the created file. -/
def createDefaultDisk (env : Env) (fs : FS) : Bool × FS × List Event :=
  if fs.existsFile diskPath then (true, fs, [])
  else if env.qemuImgCreateOk then (true, fs.writeFile diskPath [], [Event.diskCreate])
  else (false, fs, [])

/-- Embeds `ComputerVM::startQEMU`: build the command (with its
variable-store side effect), then fork; on success record the child pid. -/
def startQEMU (env : Env) (fs : FS) (s : VMState) : Bool × FS × VMState × List Event :=
  let b := buildQEMUCommand fs s.useVNC
  if env.forkQemuOk then
    (true, b.2, { s with qemuPid := env.qemuChildPid }, [Event.launch Role.emulator])
  else (false, b.2, s, [])

/-- Embeds `ComputerVM::startWebsockify`: a no-op outside VNC mode; fails if
the web-asset directory is absent; otherwise fork and record the pid. -/
def startWebsockify (env : Env) (fs : FS) (s : VMState) : Bool × VMState × List Event :=
  if !s.useVNC then (true, s, [])
  else if !fs.existsFile noVNCPath then (false, s, [])
  else if env.forkWebsockifyOk then
    (true, { s with websockifyPid := env.websockifyChildPid }, [Event.launch Role.bridge])
  else (false, s, [])

/-- Embeds `ComputerVM::cleanup`: SIGTERM and reap the emulator if its pid is
set, then SIGTERM and reap the bridge if its pid is set. -/
def cleanup (s : VMState) : List Event :=
  (if s.qemuPid ≠ -1 then [Event.term Role.emulator, Event.reap Role.emulator] else []) ++
  (if s.websockifyPid ≠ -1 then [Event.term Role.bridge, Event.reap Role.bridge] else [])

/-- Result of a boot attempt: the returned flag, the final object state, the
final filesystem, and the trace of process-lifecycle events. -/
structure BootOut where
  ok : Bool
  st : VMState
  fs : FS
  tr : List Event
deriving DecidableEq

/-- Embeds `ComputerVM::boot`: check the disk (auto-creating it if absent),
scan for removable media, stop if neither is available, stop in VNC mode if
the web assets or the websockify executable are missing, then start QEMU and,
in VNC mode, websockify, rolling back via `cleanup` if the bridge fails. -/
def boot (env : Env) (s : VMState) : BootOut :=
  let d := if env.fs.existsFile diskPath then ((true, env.fs, []) : Bool × FS × List Event)
           else createDefaultDisk env env.fs
  let diskOk := d.1
  let fs1 := d.2.1
  let ev1 := d.2.2
  let isoOk := findISO fs1 != ""
  if !diskOk && !isoOk then ⟨false, s, fs1, ev1⟩
  else
    let noVNCOk := fs1.existsFile noVNCPath
    let websockifyOk := env.websockifyInstalled
    if s.useVNC && (!noVNCOk || !websockifyOk) then ⟨false, s, fs1, ev1⟩
    else
      let q := startQEMU env fs1 s
      if !q.1 then ⟨false, q.2.2.1, q.2.1, ev1 ++ q.2.2.2⟩
      else
        let fs2 := q.2.1
        let s1 := q.2.2.1
        let ev2 := q.2.2.2
        if s1.useVNC then
          let w := startWebsockify env fs2 s1
          if w.1 then ⟨true, w.2.1, fs2, ev1 ++ ev2 ++ w.2.2⟩
          else ⟨false, w.2.1, fs2, ev1 ++ ev2 ++ w.2.2 ++ cleanup w.2.1⟩
        else ⟨true, s1, fs2, ev1 ++ ev2⟩

/-- Embeds the argument loop of `main` over the arguments after the program
name: scan for an argument equal to `--no-vnc`, stopping at the first hit. -/
def parseNoVNC : List String → Bool
  | [] => false
  | a :: rest => if a = "--no-vnc" then true else parseNoVNC rest

/-- The display mode `main` installs via `setVNCMode(!noVNC)`. -/
def useVNCOf (args : List String) : Bool := !parseNoVNC args

/-- Embeds the tail of `main`: boot the machine; on success block forever in
the running state (modelled as `none`), on failure exit with code 1. -/
def mainResult (env : Env) (args : List String) : Option Nat :=
  let s : VMState := ⟨useVNCOf args, -1, -1⟩
  if (boot env s).ok then none else some 1

/-- Embeds `signalHandler`: print a message and call `exit(0)` directly; no
process-supervision action is taken. -/
def signalHandlerTrace : List Event := [Event.exited 0]

/-- A role is live after a trace when it was launched and never reaped. -/
def liveAfter (tr : List Event) (r : Role) : Bool :=
  tr.contains (Event.launch r) && !tr.contains (Event.reap r)

/-- Index of the first occurrence of an event in a trace (length if absent). -/
def firstIdx (tr : List Event) (e : Event) : Nat :=
  tr.findIdx (fun x => x == e)

/-- A token of the firmware flash drives: it starts with the nine characters
of the drive-interface selector `if=pflash`. -/
def pflashTok (t : String) : Bool :=
  t.data.take 9 == "if=pflash".data

/-- The teardown order the specification asserts of `terminateAll`: the
termination of the bridge is issued strictly before that of the emulator. -/
def bridgeTermFirst (tr : List Event) : Prop :=
  Event.term Role.bridge ∈ tr ∧ Event.term Role.emulator ∈ tr ∧
  firstIdx tr (Event.term Role.bridge) < firstIdx tr (Event.term Role.emulator)

/-- A trace performs supervisor teardown when it issues a termination or a
reap for some child. -/
def handlerInvokesTeardown (tr : List Event) : Prop :=
  Event.term Role.emulator ∈ tr ∨ Event.term Role.bridge ∈ tr ∨
  Event.reap Role.emulator ∈ tr ∨ Event.reap Role.bridge ∈ tr

instance (tr : List Event) : Decidable (bridgeTermFirst tr) := by
  unfold bridgeTermFirst; infer_instance

instance (tr : List Event) : Decidable (handlerInvokesTeardown tr) := by
  unfold handlerInvokesTeardown; infer_instance

/-! Spec-side segment definitions for the fixed assembly order of the
emulator command (section 4.3 of the specification). -/

/-- Core CPU, memory and virtualization flags. -/
def coreFlags : List String :=
  ["qemu-system-x86_64", "-enable-kvm", "-cpu", "host", "-smp", "4", "-m", "4G"]

/-- Graphics adapter selection. -/
def graphicsFlags : List String := ["-vga", "virtio"]

/-- Display-mode flags: bridged disables the local display and enables the
remote display on the fixed channel; direct enables a local full screen. -/
def displayFlags (bridged : Bool) : List String :=
  if bridged then ["-display", "none", "-vnc", ":1"]
  else ["-display", "gtk,full-screen=on"]

/-- Firmware flash drives: the read-only firmware drive followed by the
variable-store drive, only when firmware is present. -/
def firmwareFlags (fs : FS) : List String :=
  if fs.existsFile firmwarePath then
    ["-drive", "if=pflash,format=raw,readonly=on,file=" ++ firmwarePath,
     "-drive", "if=pflash,format=raw,file=" ++ varsPath]
  else []

/-- Persistent disk drive, only when present. -/
def diskFlags (fs : FS) : List String :=
  if fs.existsFile diskPath then
    ["-drive", "file=" ++ diskPath ++ ",format=qcow2,if=virtio"]
  else []

/-- Removable-media drive, only when a media file was found. -/
def mediaFlags (fs : FS) : List String :=
  if findISO fs != "" then ["-cdrom", findISO fs] else []

/-- Audio device pair. -/
def audioFlags : List String :=
  ["-audiodev", "alsa,id=audio0", "-device", "intel-hda",
   "-device", "hda-duplex,audiodev=audio0"]

/-- Network device pair. -/
def netFlags : List String :=
  ["-netdev", "user,id=net0", "-device", "virtio-net-pci,netdev=net0"]

/-- USB input device pair. -/
def usbFlags : List String := ["-device", "usb-ehci", "-device", "usb-tablet"]

/-- Real-time-clock configuration. -/
def rtcFlags : List String := ["-rtc", "base=localtime,clock=host"]

/-! Helper lemmas about the filesystem model. -/

lemma lookupFile_writeFile_self (fs : FS) (p : String) (c : List Nat) :
    (fs.writeFile p c).lookupFile p = some c := by
  simp [FS.writeFile, FS.lookupFile, List.lookup]

lemma lookupFile_writeFile_ne (fs : FS) {p q : String} (c : List Nat) (h : q ≠ p) :
    (fs.writeFile p c).lookupFile q = fs.lookupFile q := by
  have hb : (q == p) = false := by
    cases hqp : q == p
    · rfl
    · exact (h (eq_of_beq hqp)).elim
  simp [FS.writeFile, FS.lookupFile, List.lookup, hb]

lemma existsFile_writeFile_self (fs : FS) (p : String) (c : List Nat) :
    (fs.writeFile p c).existsFile p = true := by
  simp [FS.existsFile, lookupFile_writeFile_self]

lemma existsFile_writeFile_ne (fs : FS) {p q : String} (c : List Nat) (h : q ≠ p) :
    (fs.writeFile p c).existsFile q = fs.existsFile q := by
  simp [FS.existsFile, lookupFile_writeFile_ne fs c h]

lemma findISO_writeFile (fs : FS) (p : String) (c : List Nat) :
    findISO (fs.writeFile p c) = findISO fs := rfl

lemma diskPath_ne_varsPath : diskPath ≠ varsPath := by decide

lemma firmwarePath_ne_varsPath : firmwarePath ≠ varsPath := by decide

lemma noVNCPath_ne_varsPath : noVNCPath ≠ varsPath := by decide

lemma noVNCPath_ne_diskPath : noVNCPath ≠ diskPath := by decide

/-- The filesystem a build returns: unchanged, except that the variable
store is materialized when firmware is present and the store is absent. -/
lemma build_fs_eq (fs : FS) (v : Bool) :
    (buildQEMUCommand fs v).2 =
      if fs.existsFile firmwarePath then
        (if fs.existsFile varsPath then fs
         else fs.writeFile varsPath varsContent)
      else fs := by
  by_cases h1 : fs.existsFile firmwarePath = true <;>
    by_cases h2 : fs.existsFile varsPath = true <;>
      simp [buildQEMUCommand, h1, h2]

lemma build_preserves_existsFile (fs : FS) (v : Bool) {q : String} (h : q ≠ varsPath) :
    FS.existsFile (buildQEMUCommand fs v).2 q = fs.existsFile q := by
  rw [build_fs_eq]
  by_cases h1 : fs.existsFile firmwarePath = true <;>
    by_cases h2 : fs.existsFile varsPath = true <;>
      simp [h1, h2, existsFile_writeFile_ne fs _ h]

lemma build_romEntries (fs : FS) (v : Bool) :
    ((buildQEMUCommand fs v).2).romEntries = fs.romEntries := by
  rw [build_fs_eq]
  by_cases h1 : fs.existsFile firmwarePath = true <;>
    by_cases h2 : fs.existsFile varsPath = true <;>
      simp [h1, h2, FS.writeFile]

lemma findISO_build (fs : FS) (v : Bool) :
    findISO (buildQEMUCommand fs v).2 = findISO fs := by
  unfold findISO
  rw [build_romEntries]

lemma build_preserves_noVNC (fs : FS) (v : Bool) :
    FS.existsFile (buildQEMUCommand fs v).2 noVNCPath = fs.existsFile noVNCPath :=
  build_preserves_existsFile fs v noVNCPath_ne_varsPath

lemma empty_bne_empty : (("" : String) != "") = false := by decide

/-- A full media path produced by `findISO` is never the empty string. -/
lemma rom_iso_ne_empty (n : String) : ((romPath ++ "/" ++ n) != "") = true := by
  have hne : (romPath ++ "/" ++ n) ≠ "" := by
    intro hEq
    have hdata := congrArg String.data hEq
    rw [show (romPath ++ "/" ++ n).data = "./devices/rom/".data ++ n.data from rfl] at hdata
    exact absurd hdata (by simp)
  cases hb : (romPath ++ "/" ++ n) == ""
  · simp [bne, hb]
  · exact absurd (eq_of_beq hb) hne

/-- A full media path produced by `findISO` never starts with the
drive-interface selector of a flash drive. -/
lemma pflashTok_rom (n : String) : pflashTok (romPath ++ "/" ++ n) = false := by
  have h : (romPath ++ "/" ++ n).data = "./devices/rom/".data ++ n.data := rfl
  unfold pflashTok
  rw [h, List.take_append_of_le_length (by decide)]
  decide

/-- C1 counterexample: on a session with both processes live (emulator pid
100, bridge pid 200), `cleanup` does not issue the termination of the bridge
before that of the emulator, contrary to the claimed teardown order. -/
theorem cleanup_not_bridgeTermFirst :
    ¬ bridgeTermFirst (cleanup ⟨true, 100, 200⟩) := by decide

/-- C1 (amended): for every session in which both child processes are live,
`cleanup` issues the termination of the EMULATOR first (and reaps it) and
only then the termination of the bridge, i.e. teardown is in start order,
not in reverse start order; each absent process (pid sentinel `-1`) is
tolerated as a no-op, contributing no event. -/
theorem cleanup_emulator_first (s : VMState) :
    (s.qemuPid ≠ -1 → s.websockifyPid ≠ -1 →
      Event.term Role.emulator ∈ cleanup s ∧ Event.term Role.bridge ∈ cleanup s ∧
      firstIdx (cleanup s) (Event.term Role.emulator) <
        firstIdx (cleanup s) (Event.term Role.bridge) ∧
      firstIdx (cleanup s) (Event.reap Role.emulator) <
        firstIdx (cleanup s) (Event.term Role.bridge)) ∧
    (s.qemuPid = -1 →
      Event.term Role.emulator ∉ cleanup s ∧ Event.reap Role.emulator ∉ cleanup s) ∧
    (s.websockifyPid = -1 →
      Event.term Role.bridge ∉ cleanup s ∧ Event.reap Role.bridge ∉ cleanup s) := by
  by_cases hq : s.qemuPid = -1 <;> by_cases hw : s.websockifyPid = -1 <;>
    simp [cleanup, hq, hw, firstIdx] <;> decide

/-- Witness for C1 (amended) at a session with both processes live. -/
theorem cleanup_emulator_first_witness :
    Event.term Role.emulator ∈ cleanup ⟨true, 100, 200⟩ ∧
    Event.term Role.bridge ∈ cleanup ⟨true, 100, 200⟩ ∧
    firstIdx (cleanup ⟨true, 100, 200⟩) (Event.term Role.emulator) <
      firstIdx (cleanup ⟨true, 100, 200⟩) (Event.term Role.bridge) ∧
    firstIdx (cleanup ⟨true, 100, 200⟩) (Event.reap Role.emulator) <
      firstIdx (cleanup ⟨true, 100, 200⟩) (Event.term Role.bridge) :=
  (cleanup_emulator_first ⟨true, 100, 200⟩).1 (by decide) (by decide)

/-- C2 counterexample: the signal handler performs no supervisor teardown at
all: its action trace contains neither a termination nor a reap of either
child, refuting the claim that `terminateAll` runs before the program exits. -/
theorem signalHandler_no_teardown :
    ¬ handlerInvokesTeardown signalHandlerTrace := by decide

/-- C2 (amended): on receipt of an interrupt or termination signal the
handler exits with code 0 directly, without invoking the supervisor
teardown; child processes that were live when the signal arrived are still
live after the handler runs. -/
theorem signalHandler_exits_directly :
    Event.exited 0 ∈ signalHandlerTrace ∧
    liveAfter ([Event.launch Role.emulator, Event.launch Role.bridge] ++ signalHandlerTrace)
      Role.emulator = true ∧
    liveAfter ([Event.launch Role.emulator, Event.launch Role.bridge] ++ signalHandlerTrace)
      Role.bridge = true := by decide

lemma parseNoVNC_iff (l : List String) : parseNoVNC l = true ↔ "--no-vnc" ∈ l := by
  induction l with
  | nil => simp [parseNoVNC]
  | cons a rest ih =>
    by_cases h : a = "--no-vnc"
    · simp [parseNoVNC, h]
    · simp [parseNoVNC, h, ih, List.mem_cons, Ne.symm h]

/-- C10: direct full-screen mode is selected if and only if some argument is
exactly the string `--no-vnc`; the mode depends on nothing but the presence
of that argument, so every other argument is ignored. -/
theorem argv_selects_display_mode (args args2 : List String) :
    (useVNCOf args = false ↔ "--no-vnc" ∈ args) ∧
    (("--no-vnc" ∈ args ↔ "--no-vnc" ∈ args2) → useVNCOf args = useVNCOf args2) := by
  constructor
  · by_cases hp : parseNoVNC args = true
    · simp [useVNCOf, hp, (parseNoVNC_iff args).mp hp]
    · have hm : "--no-vnc" ∉ args := fun hmem => hp ((parseNoVNC_iff args).mpr hmem)
      have hpf : parseNoVNC args = false := Bool.eq_false_iff.mpr hp
      simp [useVNCOf, hpf, hm]
  · intro h
    by_cases hp : parseNoVNC args = true
    · have h2 := (parseNoVNC_iff args2).mpr (h.mp ((parseNoVNC_iff args).mp hp))
      simp [useVNCOf, hp, h2]
    · have h1 : "--no-vnc" ∉ args := fun hmem => hp ((parseNoVNC_iff args).mpr hmem)
      have h2 : "--no-vnc" ∉ args2 := fun hmem => h1 (h.mpr hmem)
      have hpf : parseNoVNC args = false := Bool.eq_false_iff.mpr hp
      have hpf2 : parseNoVNC args2 = false :=
        Bool.eq_false_iff.mpr (fun hh => h2 ((parseNoVNC_iff args2).mp hh))
      simp [useVNCOf, hpf, hpf2]

/-- Witness for C10: an unrelated argument does not change the mode. -/
theorem argv_selects_display_mode_witness :
    useVNCOf ["--fast", "--no-vnc"] = useVNCOf ["--no-vnc"] :=
  (argv_selects_display_mode ["--fast", "--no-vnc"] ["--no-vnc"]).2 (by decide)

/-- C6: the built emulator command is exactly the concatenation, in the fixed
assembly order, of: core CPU/memory/virtualization flags, graphics adapter,
display-mode flags, the firmware flash-drive pair (only if firmware is
present, read-only drive first), the persistent disk drive (only if
present), the removable-media drive (only if a media file was found), the
audio pair, the network pair, the USB/input pair, and the real-time-clock
configuration. -/
theorem buildQEMUCommand_segment_order (fs : FS) (v : Bool) :
    (buildQEMUCommand fs v).1 =
      coreFlags ++ graphicsFlags ++ displayFlags v ++ firmwareFlags fs ++
      diskFlags fs ++ mediaFlags fs ++ audioFlags ++ netFlags ++ usbFlags ++ rtcFlags := by
  by_cases h1 : fs.existsFile firmwarePath = true <;>
    by_cases h2 : fs.existsFile varsPath = true <;>
      simp [buildQEMUCommand, coreFlags, graphicsFlags, displayFlags, firmwareFlags,
            diskFlags, mediaFlags, audioFlags, netFlags, usbFlags, rtcFlags, h1, h2,
            existsFile_writeFile_ne fs varsContent diskPath_ne_varsPath, findISO_writeFile,
            List.append_assoc]

/-- C7: when firmware is present, building creates the variable store as
exactly 64 Ki zero bytes if it does not yet exist, leaves an existing store
byte-for-byte unmodified, and building twice is idempotent on the
filesystem. -/
theorem buildQEMUCommand_varsStore (fs : FS) (v : Bool)
    (hfw : fs.existsFile firmwarePath = true) :
    (fs.existsFile varsPath = false →
      FS.lookupFile (buildQEMUCommand fs v).2 varsPath = some varsContent) ∧
    (fs.existsFile varsPath = true →
      FS.lookupFile (buildQEMUCommand fs v).2 varsPath = fs.lookupFile varsPath) ∧
    (buildQEMUCommand (buildQEMUCommand fs v).2 v).2 = (buildQEMUCommand fs v).2 ∧
    varsContent = List.replicate 65536 0 := by
  refine ⟨?_, ?_, ?_, by norm_num [varsContent]⟩
  · intro h2
    rw [build_fs_eq]
    simp [hfw, h2, lookupFile_writeFile_self]
  · intro h2
    rw [build_fs_eq]
    simp [hfw, h2]
  · by_cases h2 : fs.existsFile varsPath = true
    · rw [build_fs_eq, build_fs_eq]
      simp [hfw, h2]
    · rw [build_fs_eq, build_fs_eq]
      simp [hfw, h2, existsFile_writeFile_ne fs varsContent firmwarePath_ne_varsPath,
            existsFile_writeFile_self]

/-- Witness for C7 on a filesystem with firmware present and no store. -/
theorem buildQEMUCommand_varsStore_witness :
    FS.lookupFile (buildQEMUCommand ⟨[(firmwarePath, [7])], []⟩ true).2 varsPath =
      some varsContent :=
  (buildQEMUCommand_varsStore ⟨[(firmwarePath, [7])], []⟩ true (by decide)).1 (by decide)

/-- C8: omission without dangling flags: if firmware is absent no token of
the built command is a flash-drive token, and if no removable-media image
was found the built command contains no cdrom flag. -/
theorem buildQEMUCommand_omits_absent (fs : FS) (v : Bool) :
    (fs.existsFile firmwarePath = false →
      ((buildQEMUCommand fs v).1.all (fun t => !pflashTok t)) = true) ∧
    (findISO fs = "" →
      ((buildQEMUCommand fs v).1.contains "-cdrom") = false) := by
  constructor
  · intro hfw
    cases hd : fs.existsFile diskPath <;>
      cases hI : fs.romEntries.find? (fun n => hasIsoExt n) <;>
        cases v <;>
          simp [buildQEMUCommand, findISO, hI, hfw, hd, pflashTok_rom,
                rom_iso_ne_empty, empty_bne_empty] <;>
            decide
  · intro hiso
    by_cases hfw : fs.existsFile firmwarePath = true <;>
      by_cases h2 : fs.existsFile varsPath = true <;>
        cases hd : fs.existsFile diskPath <;>
          cases v <;>
            simp [buildQEMUCommand, hfw, h2, hd, hiso, findISO_writeFile, empty_bne_empty,
                  existsFile_writeFile_ne fs varsContent diskPath_ne_varsPath] <;>
              decide

/-- Witness for C8 on an empty filesystem. -/
theorem buildQEMUCommand_omits_absent_witness :
    ((buildQEMUCommand ⟨[], []⟩ true).1.all (fun t => !pflashTok t)) = true ∧
    ((buildQEMUCommand ⟨[], []⟩ true).1.contains "-cdrom") = false :=
  ⟨(buildQEMUCommand_omits_absent ⟨[], []⟩ true).1 (by decide),
   (buildQEMUCommand_omits_absent ⟨[], []⟩ true).2 (by decide)⟩

/-- C4: if no persistent disk is present, no removable-media image is found,
and the disk auto-creation fails, then boot fails, neither the emulator nor
the display bridge is ever launched, and the program exits with code 1. -/
theorem boot_unbootable_hard_stop (env : Env) (s : VMState) (args : List String)
    (hd : env.fs.existsFile diskPath = false)
    (hiso : findISO env.fs = "")
    (hcreate : env.qemuImgCreateOk = false) :
    (boot env s).ok = false ∧
    (boot env s).tr.contains (Event.launch Role.emulator) = false ∧
    (boot env s).tr.contains (Event.launch Role.bridge) = false ∧
    mainResult env args = some 1 := by
  have hb : ∀ s0 : VMState, boot env s0 = ⟨false, s0, env.fs, []⟩ := by
    intro s0
    simp [boot, createDefaultDisk, hd, hcreate, hiso, empty_bne_empty]
  refine ⟨?_, ?_, ?_, ?_⟩ <;> simp [hb, mainResult]

/-- Witness for C4 on the empty environment. -/
theorem boot_unbootable_hard_stop_witness :
    (boot ⟨⟨[], []⟩, false, false, false, false, 0, 0⟩ ⟨true, -1, -1⟩).ok = false ∧
    (boot ⟨⟨[], []⟩, false, false, false, false, 0, 0⟩ ⟨true, -1, -1⟩).tr.contains
      (Event.launch Role.emulator) = false ∧
    (boot ⟨⟨[], []⟩, false, false, false, false, 0, 0⟩ ⟨true, -1, -1⟩).tr.contains
      (Event.launch Role.bridge) = false ∧
    mainResult ⟨⟨[], []⟩, false, false, false, false, 0, 0⟩ [] = some 1 :=
  boot_unbootable_hard_stop ⟨⟨[], []⟩, false, false, false, false, 0, 0⟩ ⟨true, -1, -1⟩ []
    (by decide) (by decide) (by decide)

/-- C5: in bridged (VNC) display mode, if the web-asset bundle is absent or
the websockify executable is absent, boot fails and no child process is
launched, regardless of disk or removable-media availability. -/
theorem boot_bridged_missing_deps (env : Env) (s : VMState)
    (hv : s.useVNC = true)
    (hmiss : env.fs.existsFile noVNCPath = false ∨ env.websockifyInstalled = false) :
    (boot env s).ok = false ∧
    (boot env s).tr.contains (Event.launch Role.emulator) = false ∧
    (boot env s).tr.contains (Event.launch Role.bridge) = false := by
  cases hA : env.fs.existsFile diskPath <;>
    cases hB : env.qemuImgCreateOk <;>
      cases hC : (findISO env.fs != "") <;>
        rcases hmiss with hm | hm <;>
          simp [boot, createDefaultDisk, hv, hA, hB, hC, hm, findISO_writeFile,
                existsFile_writeFile_ne env.fs ([] : List Nat) noVNCPath_ne_diskPath]

/-- Witness for C5: disk present, web assets absent. -/
theorem boot_bridged_missing_deps_witness :
    (boot ⟨⟨[(diskPath, [])], []⟩, false, false, false, false, 0, 0⟩ ⟨true, -1, -1⟩).ok = false ∧
    (boot ⟨⟨[(diskPath, [])], []⟩, false, false, false, false, 0, 0⟩ ⟨true, -1, -1⟩).tr.contains
      (Event.launch Role.emulator) = false ∧
    (boot ⟨⟨[(diskPath, [])], []⟩, false, false, false, false, 0, 0⟩ ⟨true, -1, -1⟩).tr.contains
      (Event.launch Role.bridge) = false :=
  boot_bridged_missing_deps ⟨⟨[(diskPath, [])], []⟩, false, false, false, false, 0, 0⟩
    ⟨true, -1, -1⟩ (by decide) (by decide)

/-- C9: in bridged mode with the disk image absent, disk auto-creation runs
before the bridged-mode dependency check: when creation succeeds but the
web assets or the bridge executable are missing, boot fails with no process
launched, yet the created disk image persists in the final filesystem. -/
theorem boot_disk_created_despite_bridged_failure (env : Env) (s : VMState)
    (hv : s.useVNC = true)
    (hd : env.fs.existsFile diskPath = false)
    (hcreate : env.qemuImgCreateOk = true)
    (hmiss : env.fs.existsFile noVNCPath = false ∨ env.websockifyInstalled = false) :
    (boot env s).ok = false ∧
    FS.existsFile (boot env s).fs diskPath = true ∧
    Event.diskCreate ∈ (boot env s).tr ∧
    (boot env s).tr.contains (Event.launch Role.emulator) = false ∧
    (boot env s).tr.contains (Event.launch Role.bridge) = false := by
  rcases hmiss with hm | hm <;>
    simp [boot, createDefaultDisk, hv, hd, hcreate, hm, findISO_writeFile,
          existsFile_writeFile_ne env.fs ([] : List Nat) noVNCPath_ne_diskPath,
          existsFile_writeFile_self]

/-- Witness for C9 on the empty filesystem with a working disk tool. -/
theorem boot_disk_created_despite_bridged_failure_witness :
    (boot ⟨⟨[], []⟩, true, false, false, false, 0, 0⟩ ⟨true, -1, -1⟩).ok = false ∧
    FS.existsFile (boot ⟨⟨[], []⟩, true, false, false, false, 0, 0⟩ ⟨true, -1, -1⟩).fs
      diskPath = true ∧
    Event.diskCreate ∈ (boot ⟨⟨[], []⟩, true, false, false, false, 0, 0⟩ ⟨true, -1, -1⟩).tr ∧
    (boot ⟨⟨[], []⟩, true, false, false, false, 0, 0⟩ ⟨true, -1, -1⟩).tr.contains
      (Event.launch Role.emulator) = false ∧
    (boot ⟨⟨[], []⟩, true, false, false, false, 0, 0⟩ ⟨true, -1, -1⟩).tr.contains
      (Event.launch Role.bridge) = false :=
  boot_disk_created_despite_bridged_failure ⟨⟨[], []⟩, true, false, false, false, 0, 0⟩
    ⟨true, -1, -1⟩ (by decide) (by decide) (by decide) (by decide)

/-- C3: whenever a boot attempt launches the emulator successfully and the
subsequent bridge launch fails (the bridge fork fails while the program is
in VNC mode), boot reports failure, the emulator has been terminated and
reaped before that report, and the session ends with no live supervised
process. -/
theorem boot_bridge_failure_rollback (env : Env) (s : VMState)
    (hv : s.useVNC = true) (hq0 : s.qemuPid = -1) (hw0 : s.websockifyPid = -1)
    (hfq : env.forkQemuOk = true) (hfb : env.forkWebsockifyOk = false)
    (hpid : 0 < env.qemuChildPid)
    (hlaunch : Event.launch Role.emulator ∈ (boot env s).tr) :
    (boot env s).ok = false ∧
    Event.term Role.emulator ∈ (boot env s).tr ∧
    Event.reap Role.emulator ∈ (boot env s).tr ∧
    liveAfter (boot env s).tr Role.emulator = false ∧
    liveAfter (boot env s).tr Role.bridge = false := by
  have hpe : env.qemuChildPid ≠ -1 := by omega
  cases hA : env.fs.existsFile diskPath <;>
    cases hB : env.qemuImgCreateOk <;>
      cases hC : (findISO env.fs != "") <;>
        cases hD : env.fs.existsFile noVNCPath <;>
          cases hE : env.websockifyInstalled <;>
            simp [boot, createDefaultDisk, startQEMU, startWebsockify, cleanup, liveAfter,
                  hv, hq0, hw0, hfq, hfb, hpe, hA, hB, hC, hD, hE, findISO_writeFile,
                  build_preserves_noVNC,
                  existsFile_writeFile_ne env.fs ([] : List Nat) noVNCPath_ne_diskPath]
              at hlaunch ⊢

/-- Witness for C3: disk and web assets present, bridge fork fails. -/
theorem boot_bridge_failure_rollback_witness :
    (boot ⟨⟨[(diskPath, []), (noVNCPath, [])], []⟩, false, true, true, false, 100, 200⟩
      ⟨true, -1, -1⟩).ok = false ∧
    Event.term Role.emulator ∈
      (boot ⟨⟨[(diskPath, []), (noVNCPath, [])], []⟩, false, true, true, false, 100, 200⟩
        ⟨true, -1, -1⟩).tr ∧
    Event.reap Role.emulator ∈
      (boot ⟨⟨[(diskPath, []), (noVNCPath, [])], []⟩, false, true, true, false, 100, 200⟩
        ⟨true, -1, -1⟩).tr ∧
    liveAfter
      (boot ⟨⟨[(diskPath, []), (noVNCPath, [])], []⟩, false, true, true, false, 100, 200⟩
        ⟨true, -1, -1⟩).tr Role.emulator = false ∧
    liveAfter
      (boot ⟨⟨[(diskPath, []), (noVNCPath, [])], []⟩, false, true, true, false, 100, 200⟩
        ⟨true, -1, -1⟩).tr Role.bridge = false :=
  boot_bridge_failure_rollback
    ⟨⟨[(diskPath, []), (noVNCPath, [])], []⟩, false, true, true, false, 100, 200⟩
    ⟨true, -1, -1⟩ (by decide) (by decide) (by decide) (by decide) (by decide)
    (by decide) (by decide)

/-- Witness for C6 at a filesystem with a disk image and one media file. -/
theorem buildQEMUCommand_segment_order_witness :
    (buildQEMUCommand ⟨[(diskPath, [])], ["x.iso"]⟩ true).1 =
      coreFlags ++ graphicsFlags ++ displayFlags true ++
      firmwareFlags ⟨[(diskPath, [])], ["x.iso"]⟩ ++
      diskFlags ⟨[(diskPath, [])], ["x.iso"]⟩ ++
      mediaFlags ⟨[(diskPath, [])], ["x.iso"]⟩ ++
      audioFlags ++ netFlags ++ usbFlags ++ rtcFlags :=
  buildQEMUCommand_segment_order ⟨[(diskPath, [])], ["x.iso"]⟩ true
